import Mathlib

/-!
Verification of the azure-devops-mcp work-item query service.

The definitions below are a shallow embedding of the repository's source:

* `src/src/client.py` — the `AzureDevOpsClient` (HTTP request helper, WIQL
  execution, batched work-item fetching, backlog retrieval);
* `src/server.py` — the MCP tool layer (WIQL filter construction and
  result truncation for the listing tools);
* `src/epic_hierarchy_exporter.py` — the Epic hierarchy walker and the
  markdown renderer.

Remote I/O is modelled by oracle functions: an HTTP response is a value of
`HttpResponse` (status, body, parsed-JSON outcome) and each remote endpoint
is a function from the request data to such a response.  Fallible Python
code is modelled with `Except RequestError`.
-/

/-- Errors that can arise from a remote call: `httpx.HTTPStatusError`
(carrying status code and response body, raised by `raise_for_status`),
or any other exception (JSON decoding, network, ...). -/
inductive RequestError where
  | statusError (status : Nat) (body : String)
  | otherError (msg : String)
deriving DecidableEq, Repr

/-- Model `WorkItem` of `src/src/client.py`. -/
structure WorkItem where
  id : Nat
  title : String
  work_item_type : String
  state : String
  assigned_to : Option String := none
  created_date : String := ""
  changed_date : String := ""
  description : Option String := none
  tags : Option String := none
deriving DecidableEq, Repr

/-- Model `BacklogItem` of `src/src/client.py`. -/
structure BacklogItem where
  id : Nat
  title : String
  work_item_type : String
  state : String
  priority : Option Nat := none
  story_points : Option Nat := none
  assigned_to : Option String := none
deriving DecidableEq, Repr

/-- An HTTP response as observed by the client code: status code, body
text, and the outcome of `response.json()` (which can itself raise). -/
structure HttpResponse (α : Type) where
  status : Nat
  body : String
  json : Except RequestError α
deriving Repr

/-- Success test of `httpx` used by `raise_for_status`: a 2xx status. -/
def is2xx (status : Nat) : Bool :=
  200 ≤ status && status < 300

/-- Model of `response.raise_for_status()`: raises `HTTPStatusError` (carrying the
status code and body) on a non-2xx response. -/
def raise_for_status {α : Type} (response : HttpResponse α) : Except RequestError Unit :=
  if is2xx response.status then Except.ok ()
  else Except.error (RequestError.statusError response.status response.body)

/-- Model of `AzureDevOpsClient._make_request` (`src/src/client.py` lines 81-105):
the `HTTPStatusError` raised by `raise_for_status` is caught and only
printed — it is not re-raised — and `response.json()` is returned in
either case. -/
def make_request {α : Type} (response : HttpResponse α) : Except RequestError α :=
  match raise_for_status response with
  | Except.error _ => response.json
  | Except.ok _ => response.json

/-- A flat work-item reference `\x7bid\x7d` of a WIQL response. -/
structure WorkItemRef where
  id : Nat
deriving DecidableEq, Repr

/-- A relation entry of a link-mode WIQL response; `target` is the target
id when the entry has a truthy `target` object with an `id`. -/
structure WiqlRelation where
  rel : String := ""
  source : Option Nat := none
  target : Option Nat := none
deriving DecidableEq, Repr

/-- Parsed body of a WIQL response: `workItems` (flat mode) and
`workItemRelations` (link mode), each defaulting to the empty list as in
`data.get(..., [])`. -/
structure WiqlResponse where
  workItems : List WorkItemRef := []
  workItemRelations : List WiqlRelation := []
deriving DecidableEq, Repr

/-- Model of `AzureDevOpsClient.execute_wiql` (`src/src/client.py` lines 213-234):
POSTs the query; on a non-2xx response the `HTTPStatusError` is printed
and re-raised (`raise exc`); otherwise the parsed JSON body is returned. -/
def execute_wiql (post : String → HttpResponse WiqlResponse) (wiql : String) :
    Except RequestError WiqlResponse :=
  let response := post wiql
  match raise_for_status response with
  | Except.error e => Except.error e
  | Except.ok _ => response.json

/-- Constant `AzureDevOpsClient.max_batch_size` — the Azure DevOps API limit. -/
def max_batch_size : Nat := 200

/-- Contiguous chunks of size `n`, mirroring
`[ids[i : i + n] for i in range(0, len(ids), n)]`. -/
def chunksOf {α : Type} (n : Nat) (l : List α) : List (List α) :=
  if l.isEmpty then []
  else if n = 0 then []
  else l.take n :: chunksOf n (l.drop n)
termination_by l.length
decreasing_by
  simp only [List.length_drop]
  rename_i h1 h2
  have hl : l.length ≠ 0 := by
    simpa [List.isEmpty_iff_length_eq_zero] using h1
  omega

/-- Model of `AzureDevOpsClient.get_work_items` (`src/src/client.py` lines
107-139).  The per-batch request `_get_work_items_batch` is the oracle
`fetch`.  The first component is the call's outcome; the second records
the batch requests issued, in submission order.  Empty input issues no
request; input within `max_batch_size` issues a single request whose
failure propagates; larger input is split into chunks fetched via
`asyncio.gather(..., return_exceptions=True)` and merged in chunk order,
skipping chunks whose request raised. -/
def get_work_items (fetch : List Nat → Except RequestError (List WorkItem))
    (ids : List Nat) :
    Except RequestError (List WorkItem) × List (List Nat) :=
  if ids.isEmpty then (Except.ok [], [])
  else if ids.length ≤ max_batch_size then (fetch ids, [ids])
  else
    let batches := chunksOf max_batch_size ids
    let batch_results := batches.map fetch
    (Except.ok (batch_results.foldl
      (fun work_items result =>
        match result with
        | Except.error _ => work_items
        | Except.ok items => work_items ++ items) []), batches)

/-- Model of `AzureDevOpsClient.get_work_items_by_wiql` (`src/src/client.py` lines
173-184): execute the WIQL, short-circuit on an empty reference list, else
resolve the ids through `get_work_items`. -/
def get_work_items_by_wiql (post : String → HttpResponse WiqlResponse)
    (fetch : List Nat → Except RequestError (List WorkItem))
    (wiql : String) : Except RequestError (List WorkItem) :=
  match execute_wiql post wiql with
  | Except.error e => Except.error e
  | Except.ok data =>
    let work_item_refs := data.workItems
    if work_item_refs.isEmpty then Except.ok []
    else
      let ids := work_item_refs.map WorkItemRef.id
      (get_work_items fetch ids).1

/-- Conversion used by both backlog paths of
`AzureDevOpsClient.get_backlog_items`: priority and story points are
always left unset. -/
def toBacklogItem (item : WorkItem) : BacklogItem :=
  { id := item.id
    title := item.title
    work_item_type := item.work_item_type
    state := item.state
    assigned_to := item.assigned_to
    priority := none
    story_points := none }

/-- A backlog entry `\x7bid\x7d` of the backlog-listing response. -/
structure BacklogEntry where
  id : String
deriving DecidableEq, Repr

/-- Parsed body of the backlog-listing endpoint (`value` defaulting to
the empty list). -/
structure BacklogsPayload where
  value : List BacklogEntry := []
deriving DecidableEq, Repr

/-- A backlog work-item reference: `ref["target"]["id"]`. -/
structure BacklogItemRef where
  target_id : Nat
deriving DecidableEq, Repr

/-- Parsed body of the backlog work-items endpoint (`workItems`
defaulting to the empty list). -/
structure ItemsPayload where
  workItems : List BacklogItemRef := []
deriving DecidableEq, Repr

/-- Oracle bundle for `AzureDevOpsClient.get_backlog_items`: the
responses of the backlog-listing GET, the per-backlog work-items GET, the
WIQL POST used by the fallback, and the batched item fetch. -/
structure BacklogClient where
  backlogsResp : HttpResponse BacklogsPayload
  itemsResp : String → HttpResponse ItemsPayload
  post : String → HttpResponse WiqlResponse
  fetch : List Nat → Except RequestError (List WorkItem)

/-- The `try` block of `AzureDevOpsClient.get_backlog_items`
(`src/src/client.py` lines 246-280): list the backlogs, take the first
backlog's work-item references, resolve them through `get_work_items`,
and project to `BacklogItem`s. -/
def backlogPrimary (c : BacklogClient) : Except RequestError (List BacklogItem) := do
  let backlog_data ← make_request c.backlogsResp
  match backlog_data.value with
  | [] => return []
  | b :: _ =>
    let items_data ← make_request (c.itemsResp b.id)
    match items_data.workItems with
    | [] => return []
    | refs =>
      let ids := refs.map BacklogItemRef.target_id
      let work_items ← (get_work_items c.fetch ids).1
      return work_items.map toBacklogItem

/-- The fallback WIQL of `AzureDevOpsClient.get_backlog_items`. -/
def backlogWiql : String :=
  "SELECT [System.Id], [System.Title], [System.WorkItemType], [System.State], [System.AssignedTo]\n" ++
  "FROM WorkItems\n" ++
  "WHERE [System.WorkItemType] IN ('Product Backlog Item', 'User Story', 'Feature')\n" ++
  "AND [System.State] <> 'Removed'\n" ++
  "ORDER BY [Microsoft.VSTS.Common.Priority] ASC"

/-- The `except` branch of `AzureDevOpsClient.get_backlog_items`
(`src/src/client.py` lines 282-304): fall back to a WIQL query and
project its items to `BacklogItem`s. -/
def backlogFallback (c : BacklogClient) : Except RequestError (List BacklogItem) := do
  let work_items ← get_work_items_by_wiql c.post c.fetch backlogWiql
  return work_items.map toBacklogItem

/-- Model of `AzureDevOpsClient.get_backlog_items` (`src/src/client.py` lines
236-304): any exception in the primary path switches to the WIQL
fallback. -/
def get_backlog_items (c : BacklogClient) : Except RequestError (List BacklogItem) :=
  match backlogPrimary c with
  | Except.ok backlog_items => Except.ok backlog_items
  | Except.error _ => backlogFallback c

/-- Client collaborator as seen by `EpicHierarchyExporter`: the batched
item fetch and the raw WIQL execution, each returning the call's outcome. -/
structure ClientModel where
  getWorkItems : List Nat → Except RequestError (List WorkItem)
  executeWiql : String → Except RequestError WiqlResponse

/-- Failure conditions of `EpicHierarchyExporter.get_epic_hierarchy`:
the two `ValueError`s raised for the root lookup, plus any client
exception that escapes the root fetch. -/
inductive ExporterError where
  | notFound (epic_id : Nat)
  | typeMismatch (epic_id : Nat) (work_item_type : String)
  | remote (e : RequestError)
deriving DecidableEq, Repr

/-- A User-Story-level node of the hierarchy. -/
structure UserStoryNode where
  work_item : WorkItem
  tasks : List WorkItem
  bugs : List WorkItem
deriving DecidableEq, Repr

/-- A Feature-level node of the hierarchy. -/
structure FeatureNode where
  work_item : WorkItem
  user_stories : List UserStoryNode
deriving DecidableEq, Repr

/-- The assembled hierarchy dictionary of
`EpicHierarchyExporter.get_epic_hierarchy`. -/
structure Hierarchy where
  epic : WorkItem
  features : List FeatureNode
deriving DecidableEq, Repr

/-- The WIQL built by `EpicHierarchyExporter._get_children_by_type`. -/
def childrenWiql (parent_id : Nat) (work_item_type : String) : String :=
  "SELECT [System.Id]\n" ++
  "FROM WorkItemLinks\n" ++
  "WHERE [Source].[System.Id] = " ++ toString parent_id ++ "\n" ++
  "AND [Target].[System.WorkItemType] = '" ++ work_item_type ++ "'\n" ++
  "AND [System.Links.LinkType] = 'System.LinkTypes.Hierarchy-Forward'\n" ++
  "MODE (MustContain)"

/-- The `try` block of `EpicHierarchyExporter._get_children_by_type`
(`src/epic_hierarchy_exporter.py` lines 80-99): run the child query,
collect target ids from relations having a truthy target id, and resolve
them through the client's batched fetch. -/
def getChildrenByTypeE (c : ClientModel) (parent_id : Nat) (work_item_type : String) :
    Except RequestError (List WorkItem) := do
  let data ← c.executeWiql (childrenWiql parent_id work_item_type)
  let work_item_relations := data.workItemRelations
  if work_item_relations.isEmpty then return []
  let target_ids := work_item_relations.filterMap (fun relation =>
    match relation.target with
    | some tid => if tid ≠ 0 then some tid else none
    | none => none)
  if target_ids.isEmpty then return []
  c.getWorkItems target_ids

/-- Model of `EpicHierarchyExporter._get_children_by_type`
(`src/epic_hierarchy_exporter.py` lines 67-103): any exception from the
query or the item resolution is printed and turned into an empty child
list. -/
def getChildrenByType (c : ClientModel) (parent_id : Nat) (work_item_type : String) :
    List WorkItem :=
  match getChildrenByTypeE c parent_id work_item_type with
  | Except.ok children => children
  | Except.error _ => []

/-- Steps 2-3 of `EpicHierarchyExporter.get_epic_hierarchy`
(`src/epic_hierarchy_exporter.py` lines 40-65): discover Features under
the Epic, User Stories under each Feature, and Tasks and Bugs under each
User Story, assembling the levels in discovery order. -/
def assembleHierarchy (c : ClientModel) (epic_id : Nat) (epic : WorkItem) : Hierarchy :=
  let features := getChildrenByType c epic_id "Feature"
  let feature_hierarchy := features.map (fun feature =>
    let user_stories := getChildrenByType c feature.id "User Story"
    let user_story_hierarchy := user_stories.map (fun user_story =>
      { work_item := user_story
        tasks := getChildrenByType c user_story.id "Task"
        bugs := getChildrenByType c user_story.id "Bug" : UserStoryNode })
    { work_item := feature, user_stories := user_story_hierarchy : FeatureNode })
  { epic := epic, features := feature_hierarchy }

/-- Model of `EpicHierarchyExporter.get_epic_hierarchy`
(`src/epic_hierarchy_exporter.py` lines 26-65): fetch the root item,
raise `ValueError` when the lookup yields nothing or when the item is not
an Epic, and otherwise assemble the hierarchy. -/
def get_epic_hierarchy (c : ClientModel) (epic_id : Nat) :
    Except ExporterError Hierarchy :=
  match c.getWorkItems [epic_id] with
  | Except.error e => Except.error (ExporterError.remote e)
  | Except.ok [] => Except.error (ExporterError.notFound epic_id)
  | Except.ok (epic :: _) =>
    if epic.work_item_type ≠ "Epic" then
      Except.error (ExporterError.typeMismatch epic_id epic.work_item_type)
    else
      Except.ok (assembleHierarchy c epic_id epic)

/-- Python `a or d` for an optional string `a`: `None` and the empty
string are falsy. -/
def pyOrStrD (a : Option String) (d : String) : String :=
  match a with
  | some s => if s ≠ "" then s else d
  | none => d

/-- The `**Description:** ...` line, emitted only when the description is
truthy (`if item.description:`). -/
def descriptionLines (item : WorkItem) : List String :=
  match item.description with
  | some d => if d ≠ "" then ["**Description:** " ++ d] else []
  | none => []

/-- The Epic header block of `EpicHierarchyExporter.generate_markdown`
(`src/epic_hierarchy_exporter.py` lines 112-120). -/
def epicHeaderLines (epic : WorkItem) : List String :=
  ["# Epic: " ++ epic.title,
   "**ID:** " ++ toString epic.id,
   "**State:** " ++ epic.state,
   "**Assigned To:** " ++ pyOrStrD epic.assigned_to "Unassigned",
   "**Created:** " ++ epic.created_date]
  ++ descriptionLines epic
  ++ [""]

/-- One Task line group (`src/epic_hierarchy_exporter.py` lines 155-161). -/
def taskLines (i j k : Nat) (task : WorkItem) : List String :=
  ["- **" ++ toString i ++ "." ++ toString j ++ ".T" ++ toString k ++ " Task:** " ++ task.title,
   "  - **ID:** " ++ toString task.id,
   "  - **State:** " ++ task.state,
   "  - **Assigned To:** " ++ pyOrStrD task.assigned_to "Unassigned"]

/-- One Bug line group (`src/epic_hierarchy_exporter.py` lines 167-173). -/
def bugLines (i j k : Nat) (bug : WorkItem) : List String :=
  ["- **" ++ toString i ++ "." ++ toString j ++ ".B" ++ toString k ++ " Bug:** " ++ bug.title,
   "  - **ID:** " ++ toString bug.id,
   "  - **State:** " ++ bug.state,
   "  - **Assigned To:** " ++ pyOrStrD bug.assigned_to "Unassigned"]

/-- One User Story block (`src/epic_hierarchy_exporter.py` lines
137-174): header lines, then the Tasks and Bugs sections, each emitted
only when non-empty. -/
def userStoryLines (i j : Nat) (us : UserStoryNode) : List String :=
  ["### " ++ toString i ++ "." ++ toString j ++ " User Story: " ++ us.work_item.title,
   "**ID:** " ++ toString us.work_item.id,
   "**State:** " ++ us.work_item.state,
   "**Assigned To:** " ++ pyOrStrD us.work_item.assigned_to "Unassigned"]
  ++ descriptionLines us.work_item
  ++ [""]
  ++ (if us.tasks.isEmpty then []
      else "#### Tasks:" ::
        ((us.tasks.enum.map (fun p => taskLines i j (p.1 + 1) p.2)).flatten ++ [""]))
  ++ (if us.bugs.isEmpty then []
      else "#### Bugs:" ::
        ((us.bugs.enum.map (fun p => bugLines i j (p.1 + 1) p.2)).flatten ++ [""]))

/-- One Feature block (`src/epic_hierarchy_exporter.py` lines 123-177):
header lines, then either the User Story blocks or the
"No User Stories" message. -/
def featureLines (i : Nat) (f : FeatureNode) : List String :=
  ["## " ++ toString i ++ ". Feature: " ++ f.work_item.title,
   "**ID:** " ++ toString f.work_item.id,
   "**State:** " ++ f.work_item.state,
   "**Assigned To:** " ++ pyOrStrD f.work_item.assigned_to "Unassigned"]
  ++ descriptionLines f.work_item
  ++ [""]
  ++ (if f.user_stories.isEmpty then
        ["*No User Stories found for this Feature*", ""]
      else
        (f.user_stories.enum.map (fun p => userStoryLines i (p.1 + 1) p.2)).flatten)

/-- The `md_lines` list assembled by
`EpicHierarchyExporter.generate_markdown` (`src/epic_hierarchy_exporter.py`
lines 105-179): the Epic header followed by the numbered Feature blocks. -/
def generate_markdown_lines (h : Hierarchy) : List String :=
  epicHeaderLines h.epic
  ++ (h.features.enum.map (fun p => featureLines (p.1 + 1) p.2)).flatten

/-- Model of `EpicHierarchyExporter.generate_markdown`: the joined document. -/
def generate_markdown (h : Hierarchy) : String :=
  "\n".intercalate (generate_markdown_lines h)

/-- The configuration fields of `AzureDevOpsSettings` (`src/config.py`)
consumed by the tool layer.  `default_work_item_types_list` is the
comma-split type list property. -/
structure Settings where
  project : String
  default_work_item_types_list : List String
  default_max_results : Nat
  exclude_closed : Bool
  exclude_removed : Bool
  default_iteration_path : Option String := none
  default_area_path : Option String := none
  enable_project_filtering : Bool := true
deriving DecidableEq, Repr

/-- Model of `AzureDevOpsSettings.get_project_filter` (`src/config.py` lines
91-104): the explicit override wins over the process-wide flag; a clause
is emitted only for a truthy project name. -/
def get_project_filter (s : Settings) (project : String) (force_filter : Option Bool) :
    String :=
  let should_filter := match force_filter with
    | some b => b
    | none => s.enable_project_filtering
  if should_filter && !(project == "") then
    "[System.TeamProject] = '" ++ project ++ "'"
  else ""

/-- Request model `GetWorkItemsWithFiltersRequest` of `src/server.py`. -/
structure GetWorkItemsWithFiltersRequest where
  states : Option (List String) := none
  work_item_types : Option (List String) := none
  assigned_to : Option String := none
  team_name : Option String := none
  iteration_path : Option String := none
  area_path : Option String := none
  max_results : Option Int := none
  exclude_closed : Option Bool := none
  exclude_removed : Option Bool := none
  project : Option String := none
  include_project_filter : Option Bool := none
deriving DecidableEq, Repr

/-- Request model `GetWorkItemsByStateRequest` of `src/server.py`. -/
structure GetWorkItemsByStateRequest where
  state : String
  work_item_type : Option String := none
  assigned_to : Option String := none
  max_results : Option Int := none
  project : Option String := none
  include_project_filter : Option Bool := none
deriving DecidableEq, Repr

/-- Python `a or b` for optional strings: `a` when truthy, else `b`. -/
def pyOrOpt (a b : Option String) : Option String :=
  match a with
  | some s => if s ≠ "" then some s else b
  | none => b

/-- A `[System.State] = '...'` predicate. -/
def stateEqClause (state : String) : String :=
  "[System.State] = '" ++ state ++ "'"

/-- A `[System.WorkItemType] = '...'` predicate. -/
def typeEqClause (t : String) : String :=
  "[System.WorkItemType] = '" ++ t ++ "'"

/-- A parenthesised `OR`-combination of predicates. -/
def orGroup (clauses : List String) : String :=
  "(" ++ " OR ".intercalate clauses ++ ")"

/-- The state-filter step of `get_work_items_with_filters`
(`src/server.py` lines 475-497), appending to the accumulated
`conditions`: a truthy `states` list yields one OR-group of state
equalities; otherwise the effective `exclude_closed`/`exclude_removed`
values (explicit request value when not `None`, else the process default)
yield inequality predicates. -/
def addStateFilter (req : GetWorkItemsWithFiltersRequest) (s : Settings)
    (conditions : List String) : List String :=
  match req.states with
  | some (st :: rest) =>
    conditions ++ [orGroup (((st :: rest)).map stateEqClause)]
  | _ =>
    let exclude_closed := match req.exclude_closed with
      | some b => b
      | none => s.exclude_closed
    let exclude_removed := match req.exclude_removed with
      | some b => b
      | none => s.exclude_removed
    let conditions :=
      if exclude_closed then conditions ++ ["[System.State] <> 'Closed'"] else conditions
    if exclude_removed then conditions ++ ["[System.State] <> 'Removed'"] else conditions

/-- The work-item-type step (`src/server.py` lines 499-511): a truthy
`work_item_types` list, else the process-wide default type list. -/
def addTypeFilter (req : GetWorkItemsWithFiltersRequest) (s : Settings)
    (conditions : List String) : List String :=
  match req.work_item_types with
  | some (t :: rest) =>
    conditions ++ [orGroup (((t :: rest)).map typeEqClause)]
  | _ =>
    conditions ++ [orGroup (s.default_work_item_types_list.map typeEqClause)]

/-- The assignee step (`src/server.py` lines 513-515). -/
def addAssignedToFilter (req : GetWorkItemsWithFiltersRequest)
    (conditions : List String) : List String :=
  match req.assigned_to with
  | some a =>
    if a ≠ "" then conditions ++ ["[System.AssignedTo] = '" ++ a ++ "'"] else conditions
  | none => conditions

/-- The iteration-path step (`src/server.py` lines 517-520):
`request.iteration_path or settings.default_iteration_path`, emitted when
truthy. -/
def addIterationFilter (req : GetWorkItemsWithFiltersRequest) (s : Settings)
    (conditions : List String) : List String :=
  match pyOrOpt req.iteration_path s.default_iteration_path with
  | some p =>
    if p ≠ "" then conditions ++ ["[System.IterationPath] UNDER '" ++ p ++ "'"] else conditions
  | none => conditions

/-- The area-path step (`src/server.py` lines 522-525). -/
def addAreaFilter (req : GetWorkItemsWithFiltersRequest) (s : Settings)
    (conditions : List String) : List String :=
  match pyOrOpt req.area_path s.default_area_path with
  | some p =>
    if p ≠ "" then conditions ++ ["[System.AreaPath] UNDER '" ++ p ++ "'"] else conditions
  | none => conditions

/-- The project-filter step (`src/server.py` lines 527-532), with
`target_project = request.project or settings.project`. -/
def addProjectFilter (req : GetWorkItemsWithFiltersRequest) (s : Settings)
    (conditions : List String) : List String :=
  let target_project := pyOrStrD req.project s.project
  let project_filter := get_project_filter s target_project req.include_project_filter
  if project_filter ≠ "" then conditions ++ [project_filter] else conditions

/-- The `conditions` list assembled by `get_work_items_with_filters`
(`src/server.py` lines 473-532), one filter step after the other in
source order. -/
def buildFilterConditions (req : GetWorkItemsWithFiltersRequest) (s : Settings) :
    List String :=
  addProjectFilter req s
    (addAreaFilter req s
      (addIterationFilter req s
        (addAssignedToFilter req
          (addTypeFilter req s
            (addStateFilter req s [])))))

/-- Model of `where_clause = " AND ".join(conditions) if conditions else "1 = 1"`
(`src/server.py` line 535). -/
def mkWhereClause (conditions : List String) : String :=
  if conditions.isEmpty then "1 = 1" else " AND ".intercalate conditions

/-- The WHERE clause emitted by `get_work_items_with_filters`. -/
def filtersWhereClause (req : GetWorkItemsWithFiltersRequest) (s : Settings) : String :=
  mkWhereClause (buildFilterConditions req s)

/-- The state segment of the emitted clause list (step 1 of the fixed
clause sequence). -/
def stateSeg (req : GetWorkItemsWithFiltersRequest) (s : Settings) : List String :=
  match req.states with
  | some (st :: rest) => [orGroup ((st :: rest).map stateEqClause)]
  | _ =>
    (if req.exclude_closed.getD s.exclude_closed then ["[System.State] <> 'Closed'"] else [])
    ++ (if req.exclude_removed.getD s.exclude_removed then ["[System.State] <> 'Removed'"] else [])

/-- The type segment (step 2 of the fixed clause sequence). -/
def typeSeg (req : GetWorkItemsWithFiltersRequest) (s : Settings) : List String :=
  match req.work_item_types with
  | some (t :: rest) => [orGroup ((t :: rest).map typeEqClause)]
  | _ => [orGroup (s.default_work_item_types_list.map typeEqClause)]

/-- The assignee segment (step 3). -/
def assigneeSeg (req : GetWorkItemsWithFiltersRequest) : List String :=
  match req.assigned_to with
  | some a => if a ≠ "" then ["[System.AssignedTo] = '" ++ a ++ "'"] else []
  | none => []

/-- The iteration-path segment (step 4a). -/
def iterSeg (req : GetWorkItemsWithFiltersRequest) (s : Settings) : List String :=
  match pyOrOpt req.iteration_path s.default_iteration_path with
  | some p => if p ≠ "" then ["[System.IterationPath] UNDER '" ++ p ++ "'"] else []
  | none => []

/-- The area-path segment (step 4b). -/
def areaSeg (req : GetWorkItemsWithFiltersRequest) (s : Settings) : List String :=
  match pyOrOpt req.area_path s.default_area_path with
  | some p => if p ≠ "" then ["[System.AreaPath] UNDER '" ++ p ++ "'"] else []
  | none => []

/-- The project-scope segment (step 5). -/
def projSeg (req : GetWorkItemsWithFiltersRequest) (s : Settings) : List String :=
  let project_filter :=
    get_project_filter s (pyOrStrD req.project s.project) req.include_project_filter
  if project_filter ≠ "" then [project_filter] else []

/-- Python `a or d` for an optional, unconstrained `int`: `None` and `0`
are falsy, every other integer — negative ones included — is truthy. -/
def pyOrInt (a : Option Int) (d : Nat) : Int :=
  match a with
  | some v => if v ≠ 0 then v else (d : Int)
  | none => (d : Int)

/-- Python slice `l[:m]` for an arbitrary `int` bound `m`: a non-negative
bound keeps the first `m` elements; a negative bound `-k` stops `k`
elements before the end (clamped at zero). -/
def pySlice {α : Type} (l : List α) (m : Int) : List α :=
  if 0 ≤ m then l.take m.toNat
  else l.take (l.length - (-m).toNat)

/-- Result truncation of the `get_work_items_with_filters` tool
(`src/server.py` lines 544-546): `work_items` is what
`get_work_items_by_wiql` returned for the composed query. -/
def get_work_items_with_filters_truncate (req : GetWorkItemsWithFiltersRequest)
    (s : Settings) (work_items : List WorkItem) : List WorkItem :=
  let max_results := pyOrInt req.max_results s.default_max_results
  pySlice work_items max_results

/-- Result truncation of the `get_work_items_by_state` tool
(`src/server.py` lines 451-453). -/
def get_work_items_by_state_truncate (req : GetWorkItemsByStateRequest)
    (s : Settings) (work_items : List WorkItem) : List WorkItem :=
  let max_results := pyOrInt req.max_results s.default_max_results
  pySlice work_items max_results

/-- Result truncation of the `get_active_work_items` tool
(`src/server.py` lines 206-211): always the configured default cap. -/
def get_active_work_items_truncate (s : Settings) (work_items : List WorkItem) :
    List WorkItem :=
  work_items.take s.default_max_results

/-- Result truncation of the `get_my_work_items` tool
(`src/server.py` lines 259-263). -/
def get_my_work_items_truncate (s : Settings) (work_items : List WorkItem) :
    List WorkItem :=
  work_items.take s.default_max_results

/-- Result truncation of the `get_work_items_by_type` tool
(`src/server.py` lines 306-310). -/
def get_work_items_by_type_truncate (s : Settings) (work_items : List WorkItem) :
    List WorkItem :=
  work_items.take s.default_max_results

/-- Result truncation of the `get_closed_work_items` tool
(`src/server.py` lines 599-602). -/
def get_closed_work_items_truncate (s : Settings) (work_items : List WorkItem) :
    List WorkItem :=
  work_items.take s.default_max_results

/-- Result truncation of the `get_work_items_by_state_category` tool
(`src/server.py` lines 702-705). -/
def get_work_items_by_state_category_truncate (s : Settings) (work_items : List WorkItem) :
    List WorkItem :=
  work_items.take s.default_max_results

/-- A 201-element identifier list used for concrete batching scenarios. -/
def idsW : List Nat := List.range 201

/-- A batch oracle that always succeeds with no items. -/
def fetchOkEmpty : List Nat → Except RequestError (List WorkItem) :=
  fun _ => Except.ok []

/-- A concrete work item. -/
def itemA : WorkItem :=
  { id := 1, title := "A", work_item_type := "Task", state := "Active" }

/-- A concrete non-HTTP failure. -/
def errBoom : RequestError := RequestError.otherError "boom"

/-- A batch oracle that succeeds (with one item) exactly on full-size
chunks and fails on any other chunk. -/
def fetchSplit : List Nat → Except RequestError (List WorkItem) := fun batch =>
  if batch.length = max_batch_size then Except.ok [itemA] else Except.error errBoom

/-- A concrete configuration. -/
def settingsD : Settings :=
  { project := "Proj"
    default_work_item_types_list := ["Bug", "Task"]
    default_max_results := 100
    exclude_closed := true
    exclude_removed := true }

/-- A filter request with an explicit state list and explicit exclude
flags that should be ignored. -/
def reqStates : GetWorkItemsWithFiltersRequest :=
  { states := some ["Active", "New"], exclude_closed := some true, exclude_removed := some true }

/-- A filter request with no states and an explicit `exclude_closed = False`. -/
def reqNoStates : GetWorkItemsWithFiltersRequest := { exclude_closed := some false }

/-- A client whose item lookup yields nothing. -/
def clientEmpty : ClientModel :=
  { getWorkItems := fun _ => Except.ok []
    executeWiql := fun _ => Except.ok {} }

/-- A concrete Bug work item. -/
def bugItem : WorkItem :=
  { id := 5, title := "Login fails", work_item_type := "Bug", state := "Active" }

/-- A client whose item lookup yields the Bug. -/
def clientBug : ClientModel :=
  { getWorkItems := fun _ => Except.ok [bugItem]
    executeWiql := fun _ => Except.ok {} }

/-- A concrete Epic work item. -/
def epicItem : WorkItem :=
  { id := 7, title := "Checkout", work_item_type := "Epic", state := "Active"
    created_date := "2024-01-01" }

/-- A client whose root lookup succeeds with the Epic but whose every
WIQL child query fails with a server error. -/
def clientChildFail : ClientModel :=
  { getWorkItems := fun _ => Except.ok [epicItem]
    executeWiql := fun _ => Except.error (RequestError.statusError 500 "Server Error") }

/-- A client whose root lookup succeeds with the Epic and whose child
queries return no relations. -/
def clientNoFeatures : ClientModel :=
  { getWorkItems := fun ids => if ids = [7] then Except.ok [epicItem] else Except.ok []
    executeWiql := fun _ => Except.ok {} }

/-- A concrete 500 response whose body still parses. -/
def resp500 : HttpResponse WiqlResponse :=
  { status := 500, body := "Internal Server Error", json := Except.ok {} }

/-- A POST oracle that always answers 404. -/
def post404 : String → HttpResponse WiqlResponse :=
  fun _ => { status := 404, body := "Not Found", json := Except.ok {} }

/-- A backlog client whose primary backlog listing fails to parse. -/
def backlogClientFail : BacklogClient :=
  { backlogsResp :=
      { status := 200, body := "x", json := Except.error (RequestError.otherError "invalid json") }
    itemsResp := fun _ => { status := 200, body := "", json := Except.ok {} }
    post := post404
    fetch := fetchOkEmpty }

/-- A filter request whose result cap is explicitly set to zero. -/
def reqMaxZero : GetWorkItemsWithFiltersRequest := { max_results := some 0 }

/-- A configuration with a default result cap of one. -/
def settingsTiny : Settings :=
  { project := "P"
    default_work_item_types_list := ["Bug"]
    default_max_results := 1
    exclude_closed := true
    exclude_removed := true }

/-- A filter request whose result cap is set to two. -/
def reqMaxTwo : GetWorkItemsWithFiltersRequest := { max_results := some 2 }

/-- A filter request whose result cap is set to the negative value `-1`. -/
def reqMaxNeg : GetWorkItemsWithFiltersRequest := { max_results := some (-1) }

/-- A by-state request whose result cap is set to two. -/
def reqStTwo : GetWorkItemsByStateRequest := { state := "Active", max_results := some 2 }

/-- A by-state request whose result cap is explicitly set to zero. -/
def reqStZero : GetWorkItemsByStateRequest := { state := "Active", max_results := some 0 }

/-- A by-state request whose result cap is set to the negative value `-1`. -/
def reqStNeg : GetWorkItemsByStateRequest := { state := "Active", max_results := some (-1) }

/-- Three fetched work items. -/
def threeItems : List WorkItem := [itemA, itemA, itemA]

lemma chunksOf_eq {α : Type} (n : Nat) (l : List α) :
    chunksOf n l =
      if l.isEmpty then []
      else if n = 0 then [] else l.take n :: chunksOf n (l.drop n) := by
  rw [chunksOf]

lemma chunksOf_flatten {α : Type} (n : Nat) (hn : n ≠ 0) (l : List α) :
    (chunksOf n l).flatten = l := by
  induction l using chunksOf.induct n with
  | case1 l h => rw [chunksOf_eq]; simp_all [List.isEmpty_iff]
  | case2 l h h2 => exact absurd h2 hn
  | case3 l h1 h2 ih =>
    rw [chunksOf_eq, if_neg (by simp [h1]), if_neg hn]
    simp [ih, List.take_append_drop]

lemma chunksOf_eq_nil_iff {α : Type} (n : Nat) (hn : n ≠ 0) (l : List α) :
    chunksOf n l = [] ↔ l = [] := by
  rw [chunksOf_eq]
  by_cases h : l.isEmpty <;> simp_all [List.isEmpty_iff]

lemma chunksOf_mem_length {α : Type} (n : Nat) (hn : n ≠ 0) (l : List α)
    (c : List α) (hc : c ∈ chunksOf n l) : c.length ≤ n ∧ c ≠ [] := by
  induction l using chunksOf.induct n with
  | case1 l h =>
    rw [chunksOf_eq] at hc; simp_all
  | case2 l h h2 => exact absurd h2 hn
  | case3 l h1 h2 ih =>
    rw [chunksOf_eq, if_neg (by simp [h1]), if_neg hn] at hc
    rcases List.mem_cons.mp hc with h | h
    · subst h
      have hne : l ≠ [] := by simpa [List.isEmpty_iff] using h1
      constructor
      · simp [List.length_take]
      · simp [List.take_eq_nil_iff, hn, hne]
    · exact ih h

lemma chunksOf_dropLast_length {α : Type} (n : Nat) (hn : n ≠ 0) (l : List α)
    (c : List α) (hc : c ∈ (chunksOf n l).dropLast) : c.length = n := by
  induction l using chunksOf.induct n with
  | case1 l h =>
    rw [chunksOf_eq] at hc; simp_all
  | case2 l h h2 => exact absurd h2 hn
  | case3 l h1 h2 ih =>
    rw [chunksOf_eq, if_neg (by simp [h1]), if_neg hn] at hc
    by_cases hrest : chunksOf n (l.drop n) = []
    · rw [hrest] at hc; simp at hc
    · rw [List.dropLast_cons_of_ne_nil hrest] at hc
      rcases List.mem_cons.mp hc with h | h
      · subst h
        have hdrop : l.drop n ≠ [] := by
          rwa [chunksOf_eq_nil_iff n hn] at hrest
        have hlen : n < l.length := by
          by_contra hcon
          push_neg at hcon
          exact hdrop (List.drop_eq_nil_of_le hcon)
        simp [List.length_take]
        omega
      · exact ih h

lemma chunksOf_two {α : Type} (n : Nat) (hn : n ≠ 0) (l : List α)
    (h1 : n < l.length) (h2 : l.length ≤ 2 * n) :
    chunksOf n l = [l.take n, l.drop n] := by
  have hne : l.isEmpty = false := by
    cases l with
    | nil => simp at h1
    | cons a t => rfl
  rw [chunksOf_eq, hne, if_neg hn]
  simp only [Bool.false_eq_true, if_false]
  have hdne : (l.drop n).isEmpty = false := by
    cases hd : l.drop n with
    | nil =>
      have := congrArg List.length hd
      simp only [List.length_drop, List.length_nil] at this
      omega
    | cons a t => rfl
  rw [chunksOf_eq, hdne, if_neg hn]
  simp only [Bool.false_eq_true, if_false]
  have hdd : (l.drop n).drop n = [] := by
    rw [List.drop_drop]
    exact List.drop_eq_nil_of_le (by omega)
  have hdt : (l.drop n).take n = l.drop n := by
    apply List.take_of_length_le
    rw [List.length_drop]; omega
  rw [hdd, hdt, chunksOf_eq]
  simp

lemma foldl_merge (rs : List (Except RequestError (List WorkItem))) (acc : List WorkItem) :
    rs.foldl (fun work_items result =>
      match result with
      | Except.error _ => work_items
      | Except.ok items => work_items ++ items) acc
    = acc ++ (rs.filterMap (fun r => r.toOption)).flatten := by
  induction rs generalizing acc with
  | nil => simp
  | cons r rs ih =>
    cases r with
    | error e => simp [ih, Except.toOption]
    | ok items => simp [ih, Except.toOption, List.append_assoc]

lemma filterMap_toOption_of_ok (cs : List (List Nat))
    (fetch : List Nat → Except RequestError (List WorkItem))
    (g : List Nat → List WorkItem)
    (h : ∀ c ∈ cs, fetch c = Except.ok (g c)) :
    (cs.map fetch).filterMap (fun r => r.toOption) = cs.map g := by
  induction cs with
  | nil => rfl
  | cons c cs ih =>
    have hc : fetch c = Except.ok (g c) := h c (by simp)
    rw [List.map_cons, List.map_cons, List.filterMap_cons, hc,
      ih (fun c' hc' => h c' (List.mem_cons_of_mem _ hc'))]
    rfl

/-- C1: for every identifier list longer than 200 passed to
`get_work_items`, the list is partitioned into contiguous chunks of size
200 (last chunk possibly smaller), one batch request is issued per chunk,
and the merged result concatenates the per-chunk results in chunk order;
an input of exactly 201 identifiers issues exactly 2 batch requests of
sizes 200 and 1. -/
theorem batch_fetcher_chunking
    (fetch : List Nat → Except RequestError (List WorkItem)) (ids : List Nat)
    (h : max_batch_size < ids.length) :
    (get_work_items fetch ids).2 = chunksOf max_batch_size ids ∧
    (chunksOf max_batch_size ids).flatten = ids ∧
    (∀ c ∈ chunksOf max_batch_size ids, c.length ≤ max_batch_size ∧ c ≠ []) ∧
    (∀ c ∈ (chunksOf max_batch_size ids).dropLast, c.length = max_batch_size) ∧
    (∀ g : List Nat → List WorkItem,
      (∀ c ∈ chunksOf max_batch_size ids, fetch c = Except.ok (g c)) →
      (get_work_items fetch ids).1 =
        Except.ok ((chunksOf max_batch_size ids).map g).flatten) ∧
    (ids.length = 201 →
      (chunksOf max_batch_size ids).map List.length = [200, 1]) := by
  have hn : max_batch_size ≠ 0 := by decide
  have hne : ids.isEmpty = false := by
    cases ids with
    | nil => simp [max_batch_size] at h
    | cons a t => rfl
  have hgt : ¬ ids.length ≤ max_batch_size := by omega
  refine ⟨?_, chunksOf_flatten _ hn ids, fun c hc => chunksOf_mem_length _ hn ids c hc,
    fun c hc => chunksOf_dropLast_length _ hn ids c hc, ?_, ?_⟩
  · simp [get_work_items, hne, hgt]
  · intro g hg
    simp only [get_work_items, hne, Bool.false_eq_true, if_false, hgt]
    rw [foldl_merge, filterMap_toOption_of_ok _ fetch g hg]
    simp
  · intro h201
    rw [chunksOf_two max_batch_size hn ids (by omega) (by simp [max_batch_size]; omega)]
    simp [List.length_take, List.length_drop, h201, max_batch_size]

/-- Witness for `batch_fetcher_chunking` at a concrete 201-element input:
2 batch requests are issued, of sizes 200 and 1. -/
theorem batch_fetcher_chunking_witness :
    (get_work_items fetchOkEmpty idsW).2.map List.length = [200, 1] := by
  have h := batch_fetcher_chunking fetchOkEmpty idsW (by simp [idsW, max_batch_size])
  rw [h.1]
  exact h.2.2.2.2.2 (by simp [idsW])

/-- C8: `get_work_items` applied to the empty identifier list returns the
empty item sequence and issues no batch request at all. -/
theorem batch_fetcher_empty_input
    (fetch : List Nat → Except RequestError (List WorkItem)) :
    get_work_items fetch [] = (Except.ok [], []) := by
  simp [get_work_items]

/-- C2: for every multi-chunk call to `get_work_items`, the call never
raises: it returns exactly the items of the chunks whose request
succeeded, in chunk order; in particular, with two chunks where the
second request fails, the first chunk's resolved items are returned. -/
theorem batch_fetcher_partial_failure
    (fetch : List Nat → Except RequestError (List WorkItem)) (ids : List Nat)
    (h : max_batch_size < ids.length) :
    (get_work_items fetch ids).1 =
      Except.ok (((chunksOf max_batch_size ids).map fetch).filterMap
        (fun r => r.toOption)).flatten ∧
    (∀ (w1 : List WorkItem) (e : RequestError),
      ids.length ≤ 2 * max_batch_size →
      fetch (ids.take max_batch_size) = Except.ok w1 →
      fetch (ids.drop max_batch_size) = Except.error e →
      (get_work_items fetch ids).1 = Except.ok w1) := by
  have hn : max_batch_size ≠ 0 := by decide
  have hne : ids.isEmpty = false := by
    cases ids with
    | nil => simp [max_batch_size] at h
    | cons a t => rfl
  have hgt : ¬ ids.length ≤ max_batch_size := by omega
  have hmain : (get_work_items fetch ids).1 =
      Except.ok (((chunksOf max_batch_size ids).map fetch).filterMap
        (fun r => r.toOption)).flatten := by
    simp only [get_work_items, hne, Bool.false_eq_true, if_false, hgt]
    rw [foldl_merge]
    simp
  refine ⟨hmain, fun w1 e hle hok herr => ?_⟩
  rw [hmain, chunksOf_two max_batch_size hn ids (by omega) hle]
  simp [hok, herr, Except.toOption]

/-- Witness for `batch_fetcher_partial_failure`: 201 identifiers, the
200-element chunk succeeds with one item, the 1-element chunk fails — the
call still returns the first chunk's items. -/
theorem batch_fetcher_partial_failure_witness :
    (get_work_items fetchSplit idsW).1 = Except.ok [itemA] := by
  have h := batch_fetcher_partial_failure fetchSplit idsW (by simp [idsW, max_batch_size])
  exact h.2 [itemA] errBoom (by simp [idsW, max_batch_size])
    (by simp [fetchSplit, idsW, max_batch_size])
    (by simp [fetchSplit, idsW, max_batch_size])

lemma append_ite (P : Prop) [Decidable P] (c : List String) (x : String) :
    (if P then c ++ [x] else c) = c ++ (if P then [x] else []) := by
  split_ifs <;> simp

lemma addStateFilter_eq (req : GetWorkItemsWithFiltersRequest) (s : Settings)
    (conditions : List String) :
    addStateFilter req s conditions = conditions ++ stateSeg req s := by
  unfold addStateFilter stateSeg
  rcases req.states with _ | ⟨_ | ⟨st, rest⟩⟩
  · rcases req.exclude_closed with _ | bc <;> rcases req.exclude_removed with _ | br <;>
      (simp [append_ite, List.append_assoc]; split_ifs <;> simp)
  · rcases req.exclude_closed with _ | bc <;> rcases req.exclude_removed with _ | br <;>
      (simp [append_ite, List.append_assoc]; split_ifs <;> simp)
  · simp

lemma addTypeFilter_eq (req : GetWorkItemsWithFiltersRequest) (s : Settings)
    (conditions : List String) :
    addTypeFilter req s conditions = conditions ++ typeSeg req s := by
  unfold addTypeFilter typeSeg
  rcases req.work_item_types with _ | ⟨_ | ⟨t, rest⟩⟩ <;> simp

lemma addAssignedToFilter_eq (req : GetWorkItemsWithFiltersRequest)
    (conditions : List String) :
    addAssignedToFilter req conditions = conditions ++ assigneeSeg req := by
  unfold addAssignedToFilter assigneeSeg
  rcases req.assigned_to with _ | a <;> simp [append_ite] <;> split_ifs <;> simp

lemma addIterationFilter_eq (req : GetWorkItemsWithFiltersRequest) (s : Settings)
    (conditions : List String) :
    addIterationFilter req s conditions = conditions ++ iterSeg req s := by
  unfold addIterationFilter iterSeg
  rcases pyOrOpt req.iteration_path s.default_iteration_path with _ | p <;>
    simp [append_ite] <;> split_ifs <;> simp

lemma addAreaFilter_eq (req : GetWorkItemsWithFiltersRequest) (s : Settings)
    (conditions : List String) :
    addAreaFilter req s conditions = conditions ++ areaSeg req s := by
  unfold addAreaFilter areaSeg
  rcases pyOrOpt req.area_path s.default_area_path with _ | p <;>
    simp [append_ite] <;> split_ifs <;> simp

lemma addProjectFilter_eq (req : GetWorkItemsWithFiltersRequest) (s : Settings)
    (conditions : List String) :
    addProjectFilter req s conditions = conditions ++ projSeg req s := by
  unfold addProjectFilter projSeg
  simp only []
  split_ifs <;> simp

lemma buildFilterConditions_eq (req : GetWorkItemsWithFiltersRequest) (s : Settings) :
    buildFilterConditions req s =
      stateSeg req s ++ typeSeg req s ++ assigneeSeg req ++ iterSeg req s ++
        areaSeg req s ++ projSeg req s := by
  unfold buildFilterConditions
  rw [addStateFilter_eq, addTypeFilter_eq, addAssignedToFilter_eq,
    addIterationFilter_eq, addAreaFilter_eq, addProjectFilter_eq]
  simp [List.append_assoc]

/-- C3: the clause list emitted by `get_work_items_with_filters` always
decomposes, in this fixed order, into the state, type, assignee,
iteration-path, area-path and project segments, whatever optional fields
are set; the clauses are joined with `AND`, and the construction
substitutes the always-true stub `1 = 1` when no clause applies. -/
theorem filter_clause_order (req : GetWorkItemsWithFiltersRequest) (s : Settings) :
    buildFilterConditions req s =
      stateSeg req s ++ typeSeg req s ++ assigneeSeg req ++ iterSeg req s ++
        areaSeg req s ++ projSeg req s ∧
    filtersWhereClause req s =
      mkWhereClause (stateSeg req s ++ typeSeg req s ++ assigneeSeg req ++
        iterSeg req s ++ areaSeg req s ++ projSeg req s) ∧
    mkWhereClause [] = "1 = 1" ∧
    ∀ (c : String) (cs : List String),
      mkWhereClause (c :: cs) = " AND ".intercalate (c :: cs) := by
  refine ⟨buildFilterConditions_eq req s, ?_, rfl, fun c cs => rfl⟩
  unfold filtersWhereClause
  rw [buildFilterConditions_eq]

/-- C4: the state clause of `get_work_items_with_filters` is resolved by
precedence — a non-empty request state list yields one OR-group over
exactly those states at the head of the clause list and makes the output
independent of the exclude flags; otherwise the `exclude_closed` and
`exclude_removed` inequality predicates apply, each taking the explicit
request value when set (including an explicit `False`) and the
process-wide default when unset. -/
theorem state_clause_precedence (req : GetWorkItemsWithFiltersRequest) (s : Settings) :
    (∀ (st : String) (rest : List String), req.states = some (st :: rest) →
      buildFilterConditions req s =
        orGroup ((st :: rest).map stateEqClause) ::
          (typeSeg req s ++ assigneeSeg req ++ iterSeg req s ++ areaSeg req s ++
            projSeg req s) ∧
      (∀ bc br : Option Bool,
        buildFilterConditions
          { req with exclude_closed := bc, exclude_removed := br } s =
          buildFilterConditions req s)) ∧
    ((req.states = none ∨ req.states = some []) →
      buildFilterConditions req s =
        ((if req.exclude_closed.getD s.exclude_closed
            then ["[System.State] <> 'Closed'"] else [])
          ++ (if req.exclude_removed.getD s.exclude_removed
            then ["[System.State] <> 'Removed'"] else []))
          ++ (typeSeg req s ++ assigneeSeg req ++ iterSeg req s ++ areaSeg req s ++
            projSeg req s)) := by
  constructor
  · intro st rest hs
    constructor
    · rw [buildFilterConditions_eq]
      simp [stateSeg, hs, List.append_assoc]
    · intro bc br
      rw [buildFilterConditions_eq, buildFilterConditions_eq]
      simp [stateSeg, typeSeg, assigneeSeg, iterSeg, areaSeg, projSeg, hs]
  · intro hs
    rw [buildFilterConditions_eq]
    rcases hs with hs | hs <;> simp [stateSeg, hs, List.append_assoc]

/-- Witness for `state_clause_precedence`: with states `["Active", "New"]`
the OR-group heads the clause list and flipping the exclude flags changes
nothing; with no states and an explicit `exclude_closed = False` only the
`Removed` exclusion (from the process default) is emitted. -/
theorem state_clause_precedence_witness :
    buildFilterConditions reqStates settingsD =
      ["([System.State] = 'Active' OR [System.State] = 'New')",
       "([System.WorkItemType] = 'Bug' OR [System.WorkItemType] = 'Task')",
       "[System.TeamProject] = 'Proj'"] ∧
    buildFilterConditions
      { reqStates with exclude_closed := some false, exclude_removed := none } settingsD =
      buildFilterConditions reqStates settingsD ∧
    buildFilterConditions reqNoStates settingsD =
      ["[System.State] <> 'Removed'",
       "([System.WorkItemType] = 'Bug' OR [System.WorkItemType] = 'Task')",
       "[System.TeamProject] = 'Proj'"] := by
  refine ⟨?_, ?_, ?_⟩
  · have h := ((state_clause_precedence reqStates settingsD).1 "Active" ["New"] rfl).1
    rw [h]; rfl
  · exact ((state_clause_precedence reqStates settingsD).1 "Active" ["New"] rfl).2
      (some false) none
  · have h := (state_clause_precedence reqNoStates settingsD).2 (Or.inl rfl)
    rw [h]; rfl

/-- C5: `get_epic_hierarchy` fails with the not-found condition when the
root lookup yields nothing and with the type-mismatch condition when the
fetched root item's type tag is not "Epic"; in both cases the call
returns an error and no (partial) hierarchy. -/
theorem hierarchy_root_failures (c : ClientModel) (epic_id : Nat) :
    (c.getWorkItems [epic_id] = Except.ok [] →
      get_epic_hierarchy c epic_id = Except.error (ExporterError.notFound epic_id)) ∧
    (∀ (w : WorkItem) (rest : List WorkItem),
      c.getWorkItems [epic_id] = Except.ok (w :: rest) →
      w.work_item_type ≠ "Epic" →
      get_epic_hierarchy c epic_id =
        Except.error (ExporterError.typeMismatch epic_id w.work_item_type)) := by
  constructor
  · intro h
    simp [get_epic_hierarchy, h]
  · intro w rest h hty
    simp [get_epic_hierarchy, h, hty]

/-- Witness for `hierarchy_root_failures`: an empty lookup yields the
not-found error; a lookup returning a Bug yields the type-mismatch
error. -/
theorem hierarchy_root_failures_witness :
    get_epic_hierarchy clientEmpty 42 = Except.error (ExporterError.notFound 42) ∧
    get_epic_hierarchy clientBug 5 =
      Except.error (ExporterError.typeMismatch 5 "Bug") := by
  constructor
  · exact (hierarchy_root_failures clientEmpty 42).1 rfl
  · exact (hierarchy_root_failures clientBug 5).2 bugItem [] rfl (by decide)

/-- C6: a failing child-discovery query is isolated — the parent
contributes an empty child sequence and the error is not propagated: once
the root fetch has produced an Epic, the hierarchy call always succeeds
with the assembled tree. -/
theorem child_discovery_failure_isolated (c : ClientModel) (parent_id : Nat)
    (work_item_type : String) :
    (∀ e : RequestError,
      getChildrenByTypeE c parent_id work_item_type = Except.error e →
      getChildrenByType c parent_id work_item_type = []) ∧
    (∀ (epic_id : Nat) (epic : WorkItem) (rest : List WorkItem),
      c.getWorkItems [epic_id] = Except.ok (epic :: rest) →
      epic.work_item_type = "Epic" →
      get_epic_hierarchy c epic_id = Except.ok (assembleHierarchy c epic_id epic)) := by
  constructor
  · intro e he
    simp [getChildrenByType, he]
  · intro epic_id epic rest h hty
    simp [get_epic_hierarchy, h, hty]

/-- Witness for `child_discovery_failure_isolated`: with every WIQL child
query failing, the Feature query contributes no children and the walk on
a valid Epic still succeeds with the Epic-only tree. -/
theorem child_discovery_failure_isolated_witness :
    getChildrenByType clientChildFail 7 "Feature" = [] ∧
    get_epic_hierarchy clientChildFail 7 =
      Except.ok { epic := epicItem, features := [] } := by
  constructor
  · exact (child_discovery_failure_isolated clientChildFail 7 "Feature").1
      (RequestError.statusError 500 "Server Error") rfl
  · exact (child_discovery_failure_isolated clientChildFail 7 "Feature").2
      7 epicItem [] rfl rfl

/-- Counterexample to C7: the GET helper used by the item batch fetcher
does not raise on a non-2xx response — at a concrete 500 response whose
body parses, `make_request` returns the parsed body instead of
propagating a status error. -/
theorem make_request_swallows_status_cex :
    resp500.status = 500 ∧
    make_request resp500 = Except.ok {} ∧
    make_request resp500 ≠
      Except.error (RequestError.statusError 500 "Internal Server Error") := by
  refine ⟨rfl, rfl, ?_⟩
  have h1 : make_request resp500 = Except.ok {} := rfl
  rw [h1]
  simp

/-- C7 (amended): the query executor `execute_wiql` raises a distinct
error carrying the status code and the response body on every non-2xx
response, and this error propagates uncaught through
`get_work_items_by_wiql`; backlog retrieval treats any failure of its
primary path as a signal to fall back to its WIQL strategy; the GET
helper `make_request` used by the item batch fetcher, however, catches
and merely logs the status error, returning the parsed response body
regardless of the status. -/
theorem remote_error_propagation
    (post : String → HttpResponse WiqlResponse) (wiql : String)
    (fetch : List Nat → Except RequestError (List WorkItem))
    (α : Type) (resp : HttpResponse α) (c : BacklogClient) :
    (is2xx (post wiql).status = false →
      execute_wiql post wiql =
        Except.error (RequestError.statusError (post wiql).status (post wiql).body) ∧
      get_work_items_by_wiql post fetch wiql =
        Except.error (RequestError.statusError (post wiql).status (post wiql).body)) ∧
    make_request resp = resp.json ∧
    (∀ e : RequestError,
      backlogPrimary c = Except.error e → get_backlog_items c = backlogFallback c) := by
  refine ⟨?_, ?_, ?_⟩
  · intro h
    have hex : execute_wiql post wiql =
        Except.error (RequestError.statusError (post wiql).status (post wiql).body) := by
      simp [execute_wiql, raise_for_status, h]
    exact ⟨hex, by simp [get_work_items_by_wiql, hex]⟩
  · unfold make_request
    cases raise_for_status resp <;> rfl
  · intro e he
    simp [get_backlog_items, he]

/-- Witness for `remote_error_propagation`: a 404 POST yields the
status-carrying error from both the executor and its caller; the 500 GET
response still returns its parsed body; a backlog client whose primary
listing fails to parse falls back to the WIQL strategy. -/
theorem remote_error_propagation_witness :
    execute_wiql post404 "q" =
      Except.error (RequestError.statusError 404 "Not Found") ∧
    get_work_items_by_wiql post404 fetchOkEmpty "q" =
      Except.error (RequestError.statusError 404 "Not Found") ∧
    make_request resp500 = resp500.json ∧
    get_backlog_items backlogClientFail = backlogFallback backlogClientFail := by
  have h := remote_error_propagation post404 "q" fetchOkEmpty WiqlResponse resp500
    backlogClientFail
  refine ⟨(h.1 (by decide)).1, (h.1 (by decide)).2, h.2.1, ?_⟩
  exact h.2.2 (RequestError.otherError "invalid json") rfl

lemma append_ne_of_take_two (p s t : String) (hp : 2 ≤ p.data.length)
    (h : p.data.take 2 ≠ t.data.take 2) : p ++ s ≠ t := by
  intro he
  apply h
  have hd : p.data ++ s.data = t.data := by
    rw [← String.data_append]
    exact congrArg String.data he
  rw [← hd, List.take_append_of_le_length hp]

lemma noUS_notin_descriptionLines (w : WorkItem) :
    "*No User Stories found for this Feature*" ∉ descriptionLines w := by
  unfold descriptionLines
  intro hmem
  rcases hd : w.description with _ | d
  · rw [hd] at hmem; simp at hmem
  · rw [hd] at hmem
    by_cases h0 : d = ""
    · simp [h0] at hmem
    · simp [h0] at hmem
      exact append_ne_of_take_two "**Description:** " d _ (by decide) (by decide) hmem.symm

lemma noUserStories_notin_epicHeader (epic : WorkItem) :
    "*No User Stories found for this Feature*" ∉ epicHeaderLines epic := by
  intro hmem
  unfold epicHeaderLines at hmem
  simp only [List.append_assoc, List.mem_append, List.mem_cons,
    List.not_mem_nil, or_false] at hmem
  rcases hmem with (h | h | h | h | h) | h | h
  · exact append_ne_of_take_two "# Epic: " epic.title _ (by decide) (by decide) h.symm
  · exact append_ne_of_take_two "**ID:** " (toString epic.id) _ (by decide) (by decide) h.symm
  · exact append_ne_of_take_two "**State:** " epic.state _ (by decide) (by decide) h.symm
  · exact append_ne_of_take_two "**Assigned To:** " _ _ (by decide) (by decide) h.symm
  · exact append_ne_of_take_two "**Created:** " epic.created_date _ (by decide) (by decide) h.symm
  · exact noUS_notin_descriptionLines epic h
  · simp at h

/-- Counterexample to C9: at a concrete Epic with zero Features, the walk
succeeds with an empty Feature sequence but the rendered document is just
the Epic header — it does not state a "no user stories" message at the
top level. -/
theorem epic_no_features_render_cex :
    get_epic_hierarchy clientNoFeatures 7 =
      Except.ok { epic := epicItem, features := [] } ∧
    generate_markdown_lines { epic := epicItem, features := [] } =
      ["# Epic: Checkout", "**ID:** 7", "**State:** Active",
       "**Assigned To:** Unassigned", "**Created:** 2024-01-01", ""] ∧
    "*No User Stories found for this Feature*" ∉
      generate_markdown_lines { epic := epicItem, features := [] } := by
  refine ⟨rfl, rfl, ?_⟩
  decide

/-- C9 (amended): an Epic whose child discovery yields zero Features
produces a tree whose Feature sequence is empty, and its rendered
document is exactly the Epic header block — it contains no
"No User Stories" message anywhere (that message is emitted only inside a
Feature section, for a Feature with zero User Stories). -/
theorem epic_no_features_rendering (c : ClientModel) (epic_id : Nat)
    (epic : WorkItem) (rest : List WorkItem) :
    (c.getWorkItems [epic_id] = Except.ok (epic :: rest) →
      epic.work_item_type = "Epic" →
      getChildrenByType c epic_id "Feature" = [] →
      get_epic_hierarchy c epic_id = Except.ok { epic := epic, features := [] }) ∧
    generate_markdown_lines { epic := epic, features := [] } = epicHeaderLines epic ∧
    "*No User Stories found for this Feature*" ∉
      generate_markdown_lines { epic := epic, features := [] } := by
  refine ⟨?_, ?_, ?_⟩
  · intro h hty hfeat
    simp [get_epic_hierarchy, h, hty, assembleHierarchy, hfeat]
  · simp [generate_markdown_lines]
  · have h2 : generate_markdown_lines { epic := epic, features := [] } =
        epicHeaderLines epic := by simp [generate_markdown_lines]
    rw [h2]
    exact noUserStories_notin_epicHeader epic

/-- Witness for `epic_no_features_rendering` at the concrete zero-Feature
client. -/
theorem epic_no_features_rendering_witness :
    get_epic_hierarchy clientNoFeatures 7 =
      Except.ok { epic := epicItem, features := [] } ∧
    generate_markdown_lines { epic := epicItem, features := [] } =
      epicHeaderLines epicItem := by
  have h := epic_no_features_rendering clientNoFeatures 7 epicItem []
  exact ⟨h.1 rfl rfl rfl, h.2.1⟩

lemma pyOrInt_some_ne (v : Int) (d : Nat) (h : v ≠ 0) : pyOrInt (some v) d = v := by
  simp [pyOrInt, h]

lemma pyOrInt_falsy (a : Option Int) (d : Nat) (h : a = none ∨ a = some 0) :
    pyOrInt a d = (d : Int) := by
  rcases h with h | h <;> simp [h, pyOrInt]

lemma pySlice_natCast {α : Type} (l : List α) (n : Nat) :
    pySlice l (n : Int) = l.take n := by
  simp [pySlice]

lemma pySlice_neg {α : Type} (l : List α) (k : Nat) (hk : 0 < k) :
    pySlice l (-(k : Int)) = l.take (l.length - k) := by
  unfold pySlice
  rw [if_neg (by omega)]
  simp

/-- Counterexample to C10: with a default cap of `1`, an explicit
`max_results = 0` yields one item (more than the request's
`max_results`), and an explicit `max_results = -1` on three fetched items
yields two items — exceeding the default cap and trivially exceeding the
"at most `max_results`" bound. -/
theorem max_results_misbound_cex :
    reqMaxZero.max_results = some 0 ∧
    get_work_items_with_filters_truncate reqMaxZero settingsTiny [itemA] = [itemA] ∧
    ¬ (get_work_items_with_filters_truncate reqMaxZero settingsTiny [itemA]).length ≤ 0 ∧
    reqMaxNeg.max_results = some (-1) ∧
    get_work_items_with_filters_truncate reqMaxNeg settingsTiny threeItems =
      [itemA, itemA] ∧
    ¬ (get_work_items_with_filters_truncate reqMaxNeg settingsTiny threeItems).length ≤
      settingsTiny.default_max_results ∧
    ¬ ((get_work_items_with_filters_truncate reqMaxNeg settingsTiny threeItems).length : Int) ≤
      -1 := by
  refine ⟨rfl, rfl, by decide, rfl, rfl, by decide, by decide⟩

/-- C10 (amended): every listing tool truncates its fetched result
locally — `get_work_items_with_filters` and `get_work_items_by_state`
return at most `max_results` items when that field is set to a positive
value and at most `default_max_results` when the field is unset or set to
`0` (an explicit `0` is falsy in Python's `or` and falls back to the
default); a negative value `-k`, being truthy, slices the fetched list to
all but its last `k` items, a result bounded by neither cap; the other
five listing tools always return at most `default_max_results` items. -/
theorem tool_result_caps (req : GetWorkItemsWithFiltersRequest)
    (reqS : GetWorkItemsByStateRequest) (s : Settings)
    (ws1 ws2 wa wm wt wc wsc : List WorkItem) :
    (∀ v : Nat, 0 < v → req.max_results = some (v : Int) →
      (get_work_items_with_filters_truncate req s ws1).length ≤ v) ∧
    ((req.max_results = none ∨ req.max_results = some 0) →
      (get_work_items_with_filters_truncate req s ws1).length ≤ s.default_max_results) ∧
    (∀ k : Nat, 0 < k → req.max_results = some (-(k : Int)) →
      get_work_items_with_filters_truncate req s ws1 = ws1.take (ws1.length - k)) ∧
    (∀ v : Nat, 0 < v → reqS.max_results = some (v : Int) →
      (get_work_items_by_state_truncate reqS s ws2).length ≤ v) ∧
    ((reqS.max_results = none ∨ reqS.max_results = some 0) →
      (get_work_items_by_state_truncate reqS s ws2).length ≤ s.default_max_results) ∧
    (∀ k : Nat, 0 < k → reqS.max_results = some (-(k : Int)) →
      get_work_items_by_state_truncate reqS s ws2 = ws2.take (ws2.length - k)) ∧
    (get_active_work_items_truncate s wa).length ≤ s.default_max_results ∧
    (get_my_work_items_truncate s wm).length ≤ s.default_max_results ∧
    (get_work_items_by_type_truncate s wt).length ≤ s.default_max_results ∧
    (get_closed_work_items_truncate s wc).length ≤ s.default_max_results ∧
    (get_work_items_by_state_category_truncate s wsc).length ≤ s.default_max_results := by
  refine ⟨?_, ?_, ?_, ?_, ?_, ?_, ?_, ?_, ?_, ?_, ?_⟩
  · intro v hv hm
    unfold get_work_items_with_filters_truncate
    rw [hm, pyOrInt_some_ne _ _ (by omega), pySlice_natCast]
    simp [List.length_take]
  · intro hm
    unfold get_work_items_with_filters_truncate
    rw [pyOrInt_falsy _ _ hm, pySlice_natCast]
    simp [List.length_take]
  · intro k hk hm
    unfold get_work_items_with_filters_truncate
    rw [hm, pyOrInt_some_ne _ _ (by omega), pySlice_neg _ _ hk]
  · intro v hv hm
    unfold get_work_items_by_state_truncate
    rw [hm, pyOrInt_some_ne _ _ (by omega), pySlice_natCast]
    simp [List.length_take]
  · intro hm
    unfold get_work_items_by_state_truncate
    rw [pyOrInt_falsy _ _ hm, pySlice_natCast]
    simp [List.length_take]
  · intro k hk hm
    unfold get_work_items_by_state_truncate
    rw [hm, pyOrInt_some_ne _ _ (by omega), pySlice_neg _ _ hk]
  all_goals
    simp [get_active_work_items_truncate, get_my_work_items_truncate,
      get_work_items_by_type_truncate, get_closed_work_items_truncate,
      get_work_items_by_state_category_truncate, List.length_take]

/-- Witness for `tool_result_caps`, discharging each hypothesis at
concrete requests over three fetched items: a positive cap of two, an
explicit zero falling back to the default cap of one, and a negative cap
slicing off the last item. -/
theorem tool_result_caps_witness :
    (get_work_items_with_filters_truncate reqMaxTwo settingsTiny threeItems).length ≤ 2 ∧
    (get_work_items_with_filters_truncate reqMaxZero settingsTiny threeItems).length ≤ 1 ∧
    get_work_items_with_filters_truncate reqMaxNeg settingsTiny threeItems =
      threeItems.take (threeItems.length - 1) ∧
    (get_work_items_by_state_truncate reqStTwo settingsTiny threeItems).length ≤ 2 ∧
    (get_work_items_by_state_truncate reqStZero settingsTiny threeItems).length ≤ 1 ∧
    get_work_items_by_state_truncate reqStNeg settingsTiny threeItems =
      threeItems.take (threeItems.length - 1) := by
  refine ⟨?_, ?_, ?_, ?_, ?_, ?_⟩
  · exact (tool_result_caps reqMaxTwo reqStTwo settingsTiny threeItems threeItems
      [] [] [] [] []).1 2 (by decide) rfl
  · exact (tool_result_caps reqMaxZero reqStZero settingsTiny threeItems threeItems
      [] [] [] [] []).2.1 (Or.inr rfl)
  · exact (tool_result_caps reqMaxNeg reqStNeg settingsTiny threeItems threeItems
      [] [] [] [] []).2.2.1 1 (by decide) rfl
  · exact (tool_result_caps reqMaxTwo reqStTwo settingsTiny threeItems threeItems
      [] [] [] [] []).2.2.2.1 2 (by decide) rfl
  · exact (tool_result_caps reqMaxZero reqStZero settingsTiny threeItems threeItems
      [] [] [] [] []).2.2.2.2.1 (Or.inr rfl)
  · exact (tool_result_caps reqMaxNeg reqStNeg settingsTiny threeItems threeItems
      [] [] [] [] []).2.2.2.2.2.1 1 (by decide) rfl
